import Mathlib

/-!
Verification of the elastic-to-graph mapping compiler (`src/source/neo.py`,
`src/source/elastic2neo.py`).

The Python data (documents, mapping values, property values) is modelled by the
inductive type `DVal`; Python exceptions (`TypeError`, `KeyError`, `IndexError`)
are modelled by the `Except PyErr` monad.  Fallible Python dictionary access and
the `in` membership operator are embedded by `indexDVal` and `keyInDVal`,
following Python semantics per runtime type.
-/

/-- A Python value as it appears in an Elasticsearch document or a compiled
node/relationship: `None`, booleans, integers, strings, lists and dicts. -/
inductive DVal where
  | vnull : DVal
  | vbool : Bool → DVal
  | vnum : Int → DVal
  | vstr : String → DVal
  | vlist : List DVal → DVal
  | vdict : List (String × DVal) → DVal

/-- Python exceptions that the embedded code can raise. -/
inductive PyErr where
  | typeError : PyErr
  | keyError : String → PyErr
  | indexError : PyErr
deriving Repr, DecidableEq

theorem exceptOkBind {ε α β : Type} (a : α) (f : α → Except ε β) :
    (Except.ok a : Except ε α) >>= f = f a := rfl

theorem exceptErrorBind {ε α β : Type} (e : ε) (f : α → Except ε β) :
    (Except.error e : Except ε α) >>= f = Except.error e := rfl

theorem exceptPureEq {ε α : Type} (a : α) : (pure a : Except ε α) = Except.ok a := rfl

attribute [simp] exceptOkBind exceptErrorBind exceptPureEq

/-- Python `k in v` for a string `k`: dict membership, substring test on
strings, element equality on lists; `TypeError` on numbers, booleans, `None`. -/
def keyInDVal (k : String) (v : DVal) : Except PyErr Bool :=
  match v with
  | .vdict m => .ok (m.any (fun p => p.1 == k))
  | .vlist xs => .ok (xs.any (fun e => match e with | .vstr s => s == k | _ => false))
  | .vstr s => .ok (decide (k.data <:+: s.data))
  | _ => .error .typeError

/-- Python `v[k]` for a string key `k`: dict lookup (`KeyError` when absent);
`TypeError` on every non-dict value. -/
def indexDVal (v : DVal) (k : String) : Except PyErr DVal :=
  match v with
  | .vdict m =>
    match m.find? (fun p => p.1 == k) with
    | some p => .ok p.2
    | none => .error (.keyError k)
  | _ => .error .typeError

/-- Embeds `GraphBuilder._recursive_key_check` (src/source/neo.py lines
816-833): walks the dotted-path segments, returning whether the full path
exists.  The Python `keys[0] in item` membership test raises `TypeError` on a
non-traversable intermediate value. -/
def recursive_key_check (keys : List String) (item : DVal) : Except PyErr Bool :=
  match keys with
  | [] => .error .indexError
  | [k] => keyInDVal k item
  | k :: rest => do
    if (← keyInDVal k item) then
      recursive_key_check rest (← indexDVal item k)
    else
      pure false

/-- Embeds `GraphBuilder._recursive_get_value` (src/source/neo.py lines
835-852): walks the dotted-path segments and returns the terminal value, or
Python `None` (modelled as `DVal.vnull`) when a segment is absent. -/
def recursive_get_value (keys : List String) (item : DVal) : Except PyErr DVal :=
  match keys with
  | [] => .error .indexError
  | [k] => do
    if (← keyInDVal k item) then
      indexDVal item k
    else
      pure .vnull
  | k :: rest => do
    if (← keyInDVal k item) then
      recursive_get_value rest (← indexDVal item k)
    else
      pure .vnull

/-- A dotted path is benign for `item` when every intermediate value actually
traversed is a dict: either some segment is absent (traversal stops there) or
all segments resolve through dicts. -/
def dict_path_ok : List String → DVal → Bool
  | [], _ => true
  | k :: rest, .vdict m =>
    match m.find? (fun p => p.1 == k) with
    | some p => if rest.isEmpty then true else dict_path_ok rest p.2
    | none => true
  | _ :: _, _ => false

theorem find_eq_some_of_any {m : List (String × DVal)} {k : String}
    (h : m.any (fun p => p.1 == k) = true) : ∃ p, m.find? (fun p => p.1 == k) = some p := by
  cases hf : m.find? (fun p => p.1 == k) with
  | some p => exact ⟨p, rfl⟩
  | none =>
    rw [List.find?_eq_none] at hf
    rw [List.any_eq_true] at h
    rcases h with ⟨p, hp, hpk⟩
    exact absurd hpk (by simpa using hf p hp)

theorem any_eq_false_of_find_none {m : List (String × DVal)} {k : String}
    (hf : m.find? (fun p => p.1 == k) = none) : m.any (fun p => p.1 == k) = false := by
  by_contra hc
  rcases find_eq_some_of_any (by simpa using Bool.not_eq_false _ |>.mp hc) with ⟨p, hp⟩
  rw [hf] at hp
  exact absurd hp (by simp)

/-- C6 counterexample: on the document `{"a": 1}` and path `a.b` the
intermediate value `1` is not traversable, and both the path-existence check
and the value retrieval raise `TypeError` instead of returning false / `None`
as the claim states. -/
theorem recursive_key_check_raises_on_scalar :
    recursive_key_check ["a", "b"] (.vdict [("a", .vnum 1)]) = .error .typeError ∧
    recursive_get_value ["a", "b"] (.vdict [("a", .vnum 1)]) = .error .typeError :=
  ⟨rfl, rfl⟩

/-- Reference denotation of dotted-path existence over record-only
traversals: the full path exists iff every segment resolves through a dict
and the final segment is a key of the last dict. -/
def dict_path_exists : List String → DVal → Bool
  | [], _ => false
  | [k], .vdict m => m.any (fun p => p.1 == k)
  | k :: rest, .vdict m =>
    match m.find? (fun p => p.1 == k) with
    | some p => dict_path_exists rest p.2
    | none => false
  | _ :: _, _ => false

/-- C6 amended: over paths whose traversed intermediates are all dicts,
neither function raises; the check returns exactly the path's existence — in
particular, an absent segment makes it return false — and when the path is
absent the retrieval returns Python `None` (`DVal.vnull`). -/
theorem recursive_path_safe_on_dicts (keys : List String) (item : DVal)
    (hne : keys ≠ []) (hok : dict_path_ok keys item = true) :
    recursive_key_check keys item = .ok (dict_path_exists keys item) ∧
    ∃ v, recursive_get_value keys item = .ok v ∧
      (dict_path_exists keys item = false → v = .vnull) := by
  induction keys generalizing item with
  | nil => exact absurd rfl hne
  | cons k rest ih =>
    cases item with
    | vdict m =>
      cases rest with
      | nil =>
        refine ⟨by simp [recursive_key_check, keyInDVal, dict_path_exists], ?_⟩
        cases ha : m.any (fun p => p.1 == k) with
        | true =>
          rcases find_eq_some_of_any ha with ⟨p, hp⟩
          exact ⟨p.2, by simp [recursive_get_value, keyInDVal, indexDVal, ha, hp],
            by simp [dict_path_exists, ha]⟩
        | false =>
          exact ⟨.vnull, by simp [recursive_get_value, keyInDVal, ha], fun _ => rfl⟩
      | cons k2 rest2 =>
        unfold dict_path_ok at hok
        cases hf : m.find? (fun p => p.1 == k) with
        | none =>
          have ha := any_eq_false_of_find_none hf
          refine ⟨?_, .vnull, ?_, fun _ => rfl⟩
          · simp [recursive_key_check, keyInDVal, ha, dict_path_exists, hf]
          · simp [recursive_get_value, keyInDVal, ha]
        | some p =>
          rw [hf] at hok
          have hok2 : dict_path_ok (k2 :: rest2) p.2 = true := by simpa using hok
          have ha : m.any (fun q => q.1 == k) = true := by
            rw [List.any_eq_true]
            exact ⟨p, List.mem_of_find?_eq_some hf, by
              have := List.find?_some hf; simpa using this⟩
          obtain ⟨hb, v, hv, himp⟩ := ih p.2 (by simp) hok2
          have hex : dict_path_exists (k :: k2 :: rest2) (.vdict m)
              = dict_path_exists (k2 :: rest2) p.2 := by
            simp [dict_path_exists, hf]
          refine ⟨?_, v, ?_, ?_⟩
          · rw [hex]
            simp [recursive_key_check, keyInDVal, ha, indexDVal, hf, hb]
          · simp [recursive_get_value, keyInDVal, ha, indexDVal, hf, hv]
          · rw [hex]; exact himp
    | vnull => simp [dict_path_ok] at hok
    | vbool b => simp [dict_path_ok] at hok
    | vnum n => simp [dict_path_ok] at hok
    | vstr s => simp [dict_path_ok] at hok
    | vlist l => simp [dict_path_ok] at hok

/-- C6 amended, witness at a concrete input: the path `a.b` is absent from
`{"a": {"c": 1}}`, whose traversed intermediates are all dicts; the theorem
applied there yields the check returning that (false) existence and the
retrieval returning `None`, with no exception. -/
theorem recursive_path_safe_on_dicts_witness :
    dict_path_exists ["a", "b"] (.vdict [("a", .vdict [("c", .vnum 1)])]) = false ∧
    (recursive_key_check ["a", "b"] (.vdict [("a", .vdict [("c", .vnum 1)])]) =
        .ok (dict_path_exists ["a", "b"] (.vdict [("a", .vdict [("c", .vnum 1)])])) ∧
      ∃ v, recursive_get_value ["a", "b"] (.vdict [("a", .vdict [("c", .vnum 1)])]) =
          .ok v ∧
        (dict_path_exists ["a", "b"] (.vdict [("a", .vdict [("c", .vnum 1)])]) = false →
          v = .vnull)) :=
  ⟨rfl, recursive_path_safe_on_dicts ["a", "b"]
    (.vdict [("a", .vdict [("c", .vnum 1)])]) (by simp) (by rfl)⟩

/-! ## Mapping data model -/

/-- A declared property of a node or relationship in the mapping:
`key` is the dotted source path (or the `ITER!` sentinel), `ptype` the declared
type tag (`"number"`, `"string"`, `"datetime"`, `"list"`). -/
structure PropDef where
  key : String
  ptype : String

/-- A node definition of the mapping (one entry of the mapping's `nodes`
list).  Optional mapping keys are modelled as `Option` (`none` = key absent
from the YAML dict). -/
structure NodeDef where
  id : String
  nodeType : String
  labels : List String
  required : Bool
  properties : Option (List (String × PropDef))
  uniqueProperties : Option (List String)
  requiredProperties : Option (List String)
  uniqueLabels : Option (List String)
  iterator : Option String

/-- A relationship definition of the mapping (one entry of the mapping's
`relationships` list). -/
structure RelDef where
  type : String
  relationshipType : String
  directionality : String
  sourceNode : String
  destinationNode : String
  required : Bool
  unique : Option Bool
  properties : Option (List (String × PropDef))
  uniqueProperties : Option (List String)
  requiredProperties : Option (List String)

/-- The mapping: loaded once, immutable during a run. -/
structure Mapping where
  index : String
  docType : String
  nodes : List NodeDef
  relationships : List RelDef

/-- An evaluated property: the Python dict `{"value": ..., "type": ...}`. -/
structure PropValue where
  value : DVal
  ptype : String

/-- One instance of a compiled iterator node. -/
structure NodeInstance where
  labels : List String
  uniqueLabels : Option (List String)
  properties : Option (List (String × PropValue))
  uniqueProperties : Option (List (String × PropValue))

/-- A compiled node, standard or iterator: the Python dict built by
`_gen_standard_node` / `_gen_iterative_node`; keys that the code only
conditionally writes are `Option`. -/
structure CompiledNode where
  nodeType : String
  labels : List String
  id : String
  properties : Option (List (String × PropValue))
  uniqueProperties : Option (List (String × PropValue))
  uniqueLabels : Option (List String)
  instances : Option (List NodeInstance)

/-- Python `'k' in node and key in node['k']` for an optional string list. -/
def optMem (k : String) (o : Option (List String)) : Bool :=
  match o with
  | some l => l.contains k
  | none => false

/-- The dict `{"nodeType": ..., "labels": ..., "id": ...}` built at the top of
`GraphBuilder._gen_nodes` (src/source/neo.py line 590) before dispatching on
the node type. -/
def baseNode (node : NodeDef) : CompiledNode :=
  { nodeType := node.nodeType, labels := node.labels, id := node.id,
    properties := none, uniqueProperties := none, uniqueLabels := none,
    instances := none }

/-- Embeds Python `s.split(".")`: cuts the string at every dot; an empty
string yields `[""]`, matching Python. -/
def splitDotsAux : List Char → List Char → List String
  | [], acc => [String.mk acc.reverse]
  | c :: cs, acc =>
    if c = '.' then String.mk acc.reverse :: splitDotsAux cs []
    else splitDotsAux cs (c :: acc)

def splitDots (s : String) : List String := splitDotsAux s.data []

/-! ## Node compiler

Python exceptions propagate out of every call; the embedding makes this
explicit by matching on each fallible sub-computation and forwarding its
`.error`. -/

/-- The property-evaluation loop of `GraphBuilder._gen_standard_node`
(src/source/neo.py lines 615-625): for each declared property, check its
source path; when present, record `{value, type}` (and duplicate it into the
unique map when the name is listed in `uniqueProperties`); when absent and
listed in `requiredProperties`, mark the node invalid — the loop has no
`break`, so evaluation continues with the remaining properties. -/
def std_node_props (doc : DVal) (node : NodeDef) :
    List (String × PropDef) →
    Except PyErr (List (String × PropValue) × List (String × PropValue) × Bool)
  | [] => .ok ([], [], true)
  | (key, pd) :: rest =>
    match recursive_key_check (splitDots pd.key) doc with
    | .error e => .error e
    | .ok true =>
      match recursive_get_value (splitDots pd.key) doc with
      | .error e => .error e
      | .ok v =>
        match std_node_props doc node rest with
        | .error e => .error e
        | .ok (ps, ups, valid) =>
          .ok ((key, ⟨v, pd.ptype⟩) :: ps,
            (if optMem key node.uniqueProperties then
              (key, (⟨v, pd.ptype⟩ : PropValue)) :: ups else ups),
            valid)
    | .ok false =>
      if optMem key node.requiredProperties then
        match std_node_props doc node rest with
        | .error e => .error e
        | .ok (ps, ups, _) => .ok (ps, ups, false)
      else
        std_node_props doc node rest

/-- The probe variant of `std_node_props`, instrumented with an evaluation
trace: additionally
returns, in order, every declared property name whose source path the loop
looked up (a `_recursive_key_check` call), making the extent of evaluation
observable. -/
def std_node_props_probe (doc : DVal) (node : NodeDef) :
    List (String × PropDef) →
    Except PyErr (List (String × PropValue) × List (String × PropValue) × Bool × List String)
  | [] => .ok ([], [], true, [])
  | (key, pd) :: rest =>
    match recursive_key_check (splitDots pd.key) doc with
    | .error e => .error e
    | .ok true =>
      match recursive_get_value (splitDots pd.key) doc with
      | .error e => .error e
      | .ok v =>
        match std_node_props_probe doc node rest with
        | .error e => .error e
        | .ok (ps, ups, valid, tr) =>
          .ok ((key, ⟨v, pd.ptype⟩) :: ps,
            (if optMem key node.uniqueProperties then
              (key, (⟨v, pd.ptype⟩ : PropValue)) :: ups else ups),
            valid, key :: tr)
    | .ok false =>
      if optMem key node.requiredProperties then
        match std_node_props_probe doc node rest with
        | .error e => .error e
        | .ok (ps, ups, _, tr) => .ok (ps, ups, false, key :: tr)
      else
        match std_node_props_probe doc node rest with
        | .error e => .error e
        | .ok (ps, ups, valid, tr) => .ok (ps, ups, valid, key :: tr)

/-- Embeds `GraphBuilder._gen_standard_node` (src/source/neo.py lines
604-633): evaluate the declared properties; when the node is valid, attach
the non-empty property maps and the `uniqueLabels` to the new node; an invalid
node is returned bare, with `valid = false`. -/
def gen_standard_node (doc : DVal) (node : NodeDef) :
    Except PyErr (CompiledNode × Bool) :=
  match (match node.properties with
         | some l => std_node_props doc node l
         | none => .ok ([], [], true)) with
  | .error e => .error e
  | .ok (ps, ups, valid) =>
    if valid then
      .ok ({ baseNode node with
             properties := if ps.length > 0 then some ps else none,
             uniqueProperties := if ups.length > 0 then some ups else none,
             uniqueLabels := node.uniqueLabels }, true)
    else
      .ok (baseNode node, false)

theorem std_node_props_probe_spec (doc : DVal) (node : NodeDef) :
    ∀ (l : List (String × PropDef)) (ps ups : List (String × PropValue))
      (valid : Bool) (tr : List String),
      std_node_props_probe doc node l = .ok (ps, ups, valid, tr) →
      tr = l.map (fun p => p.1) ∧ std_node_props doc node l = .ok (ps, ups, valid) := by
  intro l
  induction l with
  | nil =>
    intro ps ups valid tr h
    simp only [std_node_props_probe, Except.ok.injEq, Prod.mk.injEq] at h
    obtain ⟨h1, h2, h3, h4⟩ := h
    subst h1; subst h2; subst h3; subst h4
    exact ⟨rfl, rfl⟩
  | cons hd rest ih =>
    intro ps ups valid tr h
    obtain ⟨key, pd⟩ := hd
    cases hc : recursive_key_check (splitDots pd.key) doc with
    | error e => simp [std_node_props_probe, hc] at h
    | ok b =>
      cases b with
      | true =>
        cases hv : recursive_get_value (splitDots pd.key) doc with
        | error e => simp [std_node_props_probe, hc, hv] at h
        | ok v =>
          cases hr : std_node_props_probe doc node rest with
          | error e => simp [std_node_props_probe, hc, hv, hr] at h
          | ok r =>
            obtain ⟨ps', ups', valid', tr'⟩ := r
            obtain ⟨htr, hstd⟩ := ih ps' ups' valid' tr' hr
            simp only [std_node_props_probe, hc, hv, hr, Except.ok.injEq, Prod.mk.injEq] at h
            obtain ⟨h1, h2, h3, h4⟩ := h
            subst h1; subst h2; subst h3; subst h4
            exact ⟨by simp [htr], by simp [std_node_props, hc, hv, hstd]⟩
      | false =>
        by_cases hreq : optMem key node.requiredProperties = true
        · cases hr : std_node_props_probe doc node rest with
          | error e => simp [std_node_props_probe, hc, hreq, hr] at h
          | ok r =>
            obtain ⟨ps', ups', valid', tr'⟩ := r
            obtain ⟨htr, hstd⟩ := ih ps' ups' valid' tr' hr
            simp only [std_node_props_probe, hc, hreq, if_true, hr,
              Except.ok.injEq, Prod.mk.injEq] at h
            obtain ⟨h1, h2, h3, h4⟩ := h
            subst h1; subst h2; subst h3; subst h4
            exact ⟨by simp [htr], by simp [std_node_props, hc, hreq, hstd]⟩
        · cases hr : std_node_props_probe doc node rest with
          | error e => simp [std_node_props_probe, hc, hreq, hr] at h
          | ok r =>
            obtain ⟨ps', ups', valid', tr'⟩ := r
            obtain ⟨htr, hstd⟩ := ih ps' ups' valid' tr' hr
            rw [Bool.not_eq_true] at hreq
            simp only [std_node_props_probe, hc, hreq, Bool.false_eq_true, if_false, hr,
              Except.ok.injEq, Prod.mk.injEq] at h
            obtain ⟨h1, h2, h3, h4⟩ := h
            subst h1; subst h2; subst h3; subst h4
            exact ⟨by simp [htr], by simp [std_node_props, hc, hreq, hstd]⟩

/-- The standard node of the C2 experiment: two declared properties, the
first (`a`) required, only the second present in the document. -/
def node_C2 : NodeDef :=
  { id := "n", nodeType := "standard", labels := ["L"], required := true,
    properties := some [("a", ⟨"a", "string"⟩), ("b", ⟨"b", "string"⟩)],
    uniqueProperties := none, requiredProperties := some ["a"],
    uniqueLabels := none, iterator := none }

/-- The document of the C2 experiment: `{"b": "v"}` (required path `a` absent). -/
def doc_C2 : DVal := .vdict [("b", .vstr "v")]

/-- C2 counterexample: after the required property `a` fails, the compiler
does not stop: the trace shows `b`'s source path is still looked up, and `b`'s
value is in fact retrieved into the internal property map (the node is marked
invalid, `valid = false`). -/
theorem std_node_evaluates_after_required_failure :
    std_node_props_probe doc_C2 node_C2 [("a", ⟨"a", "string"⟩), ("b", ⟨"b", "string"⟩)] =
      .ok ([("b", ⟨.vstr "v", "string"⟩)], [], false, ["a", "b"]) := rfl

/-- C2 amended: a required-property failure marks the node invalid, but does
not short-circuit: every declared property's source path is looked up (the
trace equals the full declared key list), and the invalid node is returned
bare (its evaluated properties are discarded). -/
theorem std_node_no_short_circuit (doc : DVal) (node : NodeDef)
    (l : List (String × PropDef)) (ps ups : List (String × PropValue))
    (valid : Bool) (tr : List String)
    (hp : node.properties = some l)
    (h : std_node_props_probe doc node l = .ok (ps, ups, valid, tr)) :
    tr = l.map (fun p => p.1) ∧
    (valid = false → gen_standard_node doc node = .ok (baseNode node, false)) := by
  obtain ⟨htr, hstd⟩ := std_node_props_probe_spec doc node l ps ups valid tr h
  refine ⟨htr, fun hvf => ?_⟩
  subst hvf
  simp [gen_standard_node, hp, hstd]

/-- C2 amended, witness: applying the theorem at the concrete C2 experiment
discharges its hypotheses and shows both declared keys were evaluated. -/
theorem std_node_no_short_circuit_witness :
    (["a", "b"] : List String) =
      [("a", (⟨"a", "string"⟩ : PropDef)), ("b", ⟨"b", "string"⟩)].map (fun p => p.1) ∧
    (false = false → gen_standard_node doc_C2 node_C2 = .ok (baseNode node_C2, false)) :=
  std_node_no_short_circuit doc_C2 node_C2
    [("a", ⟨"a", "string"⟩), ("b", ⟨"b", "string"⟩)]
    [("b", ⟨.vstr "v", "string"⟩)] [] false ["a", "b"] rfl rfl

/-- Python `for value in v`: lists iterate their elements, strings their
characters, dicts their keys; numbers, booleans and `None` raise `TypeError`. -/
def pyIter (v : DVal) : Except PyErr (List DVal) :=
  match v with
  | .vlist xs => .ok xs
  | .vstr s => .ok (s.data.map (fun c => DVal.vstr (String.mk [c])))
  | .vdict m => .ok (m.map (fun p => DVal.vstr p.1))
  | _ => .error .typeError

/-- The per-element property-evaluation loop of
`GraphBuilder._gen_iterative_node` (src/source/neo.py lines 647-670):
like the standard-node loop, but the `ITER!` sentinel source path binds the
current array element `value`, and a required-property failure invalidates
the instance with a `break` (result `none`). -/
def iter_node_props (doc : DVal) (node : NodeDef) (value : DVal) :
    List (String × PropDef) →
    Except PyErr (Option (List (String × PropValue) × List (String × PropValue)))
  | [] => .ok (some ([], []))
  | (key, pd) :: rest =>
    match recursive_key_check (splitDots pd.key) doc with
    | .error e => .error e
    | .ok true =>
      match recursive_get_value (splitDots pd.key) doc with
      | .error e => .error e
      | .ok v =>
        match iter_node_props doc node value rest with
        | .error e => .error e
        | .ok none => .ok none
        | .ok (some (ps, ups)) =>
          .ok (some ((key, ⟨v, pd.ptype⟩) :: ps,
            (if optMem key node.uniqueProperties then
              (key, (⟨v, pd.ptype⟩ : PropValue)) :: ups else ups)))
    | .ok false =>
      if pd.key == "ITER!" then
        match iter_node_props doc node value rest with
        | .error e => .error e
        | .ok none => .ok none
        | .ok (some (ps, ups)) =>
          .ok (some ((key, ⟨value, pd.ptype⟩) :: ps,
            (if optMem key node.uniqueProperties then
              (key, (⟨value, pd.ptype⟩ : PropValue)) :: ups else ups)))
      else if optMem key node.requiredProperties then
        .ok none
      else
        iter_node_props doc node value rest

/-- The element loop of `GraphBuilder._gen_iterative_node` (src/source/neo.py
lines 646-676): one `NodeInstance` per array element whose properties
evaluate as valid; invalid instances are dropped. -/
def iter_node_instances (doc : DVal) (node : NodeDef) :
    List DVal → Except PyErr (List NodeInstance)
  | [] => .ok []
  | value :: rest =>
    match (match node.properties with
           | some l => iter_node_props doc node value l
           | none => .ok (some ([], []))) with
    | .error e => .error e
    | .ok none => iter_node_instances doc node rest
    | .ok (some (ps, ups)) =>
      match iter_node_instances doc node rest with
      | .error e => .error e
      | .ok insts =>
        .ok ({ labels := node.labels, uniqueLabels := node.uniqueLabels,
               properties := if ps.length > 0 then some ps else none,
               uniqueProperties := if ups.length > 0 then some ups else none }
              :: insts)

/-- Embeds `GraphBuilder._gen_iterative_node` (src/source/neo.py lines
635-680): resolve the `iterator` path (an absent mapping key raises
`KeyError`, an absent document path yields an invalid node); build one
instance per array element; the node is valid iff at least one instance was
produced. -/
def gen_iterative_node (doc : DVal) (node : NodeDef) :
    Except PyErr (CompiledNode × Bool) :=
  match node.iterator with
  | none => .error (.keyError "iterator")
  | some itPath =>
    match recursive_key_check (splitDots itPath) doc with
    | .error e => .error e
    | .ok false => .ok (baseNode node, false)
    | .ok true =>
      match recursive_get_value (splitDots itPath) doc with
      | .error e => .error e
      | .ok arr =>
        match pyIter arr with
        | .error e => .error e
        | .ok elems =>
          match iter_node_instances doc node elems with
          | .error e => .error e
          | .ok node_list =>
            if node_list.length > 0 then
              .ok ({ baseNode node with instances := some node_list }, true)
            else
              .ok (baseNode node, false)

/-- The node loop of `GraphBuilder._gen_nodes` (src/source/neo.py lines
587-602): dispatch on the node type; a valid node is appended; an invalid
required node marks the document invalid and `break`s; an invalid
non-required node is skipped. -/
def gen_nodes_go (doc : DVal) :
    List NodeDef → Except PyErr (List CompiledNode × Bool)
  | [] => .ok ([], true)
  | node :: rest =>
    match (if node.nodeType == "standard" then gen_standard_node doc node
           else if node.nodeType == "iterator" then gen_iterative_node doc node
           else .ok (baseNode node, false)) with
    | .error e => .error e
    | .ok (new_node, valid) =>
      if valid then
        match gen_nodes_go doc rest with
        | .error e => .error e
        | .ok (ns, valid_doc) => .ok (new_node :: ns, valid_doc)
      else if node.required then
        .ok ([], false)
      else
        gen_nodes_go doc rest

/-- Embeds `GraphBuilder._gen_nodes` (src/source/neo.py lines 581-602). -/
def gen_nodes (mapping : Mapping) (doc : DVal) :
    Except PyErr (List CompiledNode × Bool) :=
  gen_nodes_go doc mapping.nodes

/-! ## Relationship compiler -/

/-- One instance of a compiled iterator relationship. -/
structure RelInstance where
  type : String
  directionality : String
  unique : Option Bool
  properties : Option (List (String × PropValue))
  uniqueProperties : Option (List (String × PropValue))

/-- A compiled relationship, standard or iterator: the Python dict built by
`_gen_standard_relationship` / `_gen_iterative_relationship`. -/
structure CompiledRel where
  type : String
  relationshipType : String
  directionality : Option String
  unique : Option Bool
  sourceNode : Option CompiledNode
  destinationNode : Option CompiledNode
  properties : Option (List (String × PropValue))
  uniqueProperties : Option (List (String × PropValue))
  instances : Option (List RelInstance)

/-- The dict `{"type": ..., "relationshipType": ...}` built at the top of
`GraphBuilder._gen_relationships` (src/source/neo.py line 693). -/
def baseRel (rel : RelDef) : CompiledRel :=
  { type := rel.type, relationshipType := rel.relationshipType,
    directionality := none, unique := none, sourceNode := none,
    destinationNode := none, properties := none, uniqueProperties := none,
    instances := none }

/-- The endpoint scan `for node in nodes: if node['id'] == relationship[rel_node]`
(src/source/neo.py lines 722-727): the last matching node wins. -/
def find_node (nodes : List CompiledNode) (nid : String) : Option CompiledNode :=
  (nodes.filter (fun n => n.id == nid)).getLast?

/-- The property-evaluation loop shared by
`GraphBuilder._gen_standard_relationship` (src/source/neo.py lines 733-745)
and `GraphBuilder._gen_iterative_relationship` (lines 791-803), threading the
accumulated `properties` / `unique_properties` dicts.  Unlike the node loops,
the `uniqueProperties` copy sits after (not inside) the presence branch: an
absent, non-required property that is listed in `uniqueProperties` reaches
`properties[key]` with the key never stored, raising `KeyError`.  A required
failure marks the relationship invalid and `break`s (result `none`). -/
def rel_props_go (doc : DVal) (rel : RelDef)
    (props uprops : List (String × PropValue)) :
    List (String × PropDef) →
    Except PyErr (Option (List (String × PropValue) × List (String × PropValue)))
  | [] => .ok (some (props, uprops))
  | (key, pd) :: rest =>
    match recursive_key_check (splitDots pd.key) doc with
    | .error e => .error e
    | .ok true =>
      match recursive_get_value (splitDots pd.key) doc with
      | .error e => .error e
      | .ok v =>
        let pv : PropValue := ⟨v, pd.ptype⟩
        rel_props_go doc rel (props ++ [(key, pv)])
          (if optMem key rel.uniqueProperties then uprops ++ [(key, pv)] else uprops) rest
    | .ok false =>
      if optMem key rel.requiredProperties then
        .ok none
      else if optMem key rel.uniqueProperties then
        match props.find? (fun p => p.1 == key) with
        | some p => rel_props_go doc rel props (uprops ++ [(key, p.2)]) rest
        | none => .error (.keyError key)
      else
        rel_props_go doc rel props uprops rest

/-- The partially filled relationship dict of
`_gen_standard_relationship` after the endpoint scan (src/source/neo.py lines
719-727): directionality, the optional unique flag, and whichever endpoints
were found. -/
def stdRelBase (rel : RelDef) (nodes : List CompiledNode) : CompiledRel :=
  { baseRel rel with
    directionality := some rel.directionality,
    unique := rel.unique, sourceNode := find_node nodes rel.sourceNode,
    destinationNode := find_node nodes rel.destinationNode }

/-- Embeds `GraphBuilder._gen_standard_relationship` (src/source/neo.py lines
709-751) continued: an unresolved endpoint makes the relationship invalid,
with no property evaluation; otherwise evaluate properties and on success
attach the non-empty maps. -/
def gen_standard_relationship (doc : DVal) (rel : RelDef)
    (nodes : List CompiledNode) : Except PyErr (CompiledRel × Bool) :=
  if (find_node nodes rel.sourceNode).isSome &&
      (find_node nodes rel.destinationNode).isSome then
    match rel.properties with
    | some pl =>
      match rel_props_go doc rel [] [] pl with
      | .error e => .error e
      | .ok none => .ok (stdRelBase rel nodes, false)
      | .ok (some (ps, ups)) =>
        .ok ({ stdRelBase rel nodes with
               properties := if ps.length > 0 then some ps else none,
               uniqueProperties := if ups.length > 0 then some ups else none }, true)
    | none => .ok (stdRelBase rel nodes, true)
  else
    .ok (stdRelBase rel nodes, false)

/-- The per-index loop body of `GraphBuilder._gen_iterative_relationship`
(src/source/neo.py lines 785-809): the instance dict and its evaluated
properties depend only on the document and the relationship mapping, not on
the loop index; `none` models the per-instance required-failure. -/
def iter_rel_instance (doc : DVal) (rel : RelDef) :
    Except PyErr (Option RelInstance) :=
  match (match rel.properties with
         | some pl => rel_props_go doc rel [] [] pl
         | none => .ok (some ([], []))) with
  | .error e => .error e
  | .ok none => .ok none
  | .ok (some (ps, ups)) =>
    .ok (some { type := rel.type, directionality := rel.directionality,
                unique := rel.unique,
                properties := if ps.length > 0 then some ps else none,
                uniqueProperties := if ups.length > 0 then some ups else none })

/-- The loop `for i in range(0, len(iterative_node['instances']))`
(src/source/neo.py line 784): runs the loop body once per index, appending
the valid instances. -/
def iter_rel_instances (doc : DVal) (rel : RelDef) :
    Nat → Except PyErr (List RelInstance)
  | 0 => .ok []
  | n + 1 =>
    match iter_rel_instance doc rel with
    | .error e => .error e
    | .ok none => iter_rel_instances doc rel n
    | .ok (some inst) =>
      match iter_rel_instances doc rel n with
      | .error e => .error e
      | .ok insts => .ok (inst :: insts)

/-- The endpoint matches of the iterative-relationship scan: the nodes whose
id equals the relationship's `sourceNode` and `destinationNode` references
(src/source/neo.py lines 765-775). -/
def srcMatches (nodes : List CompiledNode) (rel : RelDef) : List CompiledNode :=
  nodes.filter (fun n => n.id == rel.sourceNode)

def dstMatches (nodes : List CompiledNode) (rel : RelDef) : List CompiledNode :=
  nodes.filter (fun n => n.id == rel.destinationNode)

/-- The matches counted as `iterative_nodes` by the scan: every endpoint
match whose compiled node is iterator-typed, source endpoint scanned first;
the Python variable `iterative_node` keeps the last of them. -/
def iterRelMatches (nodes : List CompiledNode) (rel : RelDef) : List CompiledNode :=
  (srcMatches nodes rel ++ dstMatches nodes rel).filter (fun n => n.nodeType == "iterator")

/-- The partially filled iterative relationship dict after the endpoint scan. -/
def iterRelBase (rel : RelDef) (nodes : List CompiledNode) : CompiledRel :=
  { baseRel rel with
    sourceNode := (srcMatches nodes rel).getLast?,
    destinationNode := (dstMatches nodes rel).getLast? }

/-- Embeds `GraphBuilder._gen_iterative_relationship` (src/source/neo.py
lines 753-814): resolve both endpoints, counting the matches whose compiled
node is iterator-typed (the last such match is kept); exactly one iterator
endpoint is required; then produce one instance per entry of that node's
instance list; the relationship is valid iff at least one instance was
produced. -/
def gen_iterative_relationship (doc : DVal) (rel : RelDef)
    (nodes : List CompiledNode) : Except PyErr (CompiledRel × Bool) :=
  if !(srcMatches nodes rel).isEmpty && !(dstMatches nodes rel).isEmpty &&
      (iterRelMatches nodes rel).length == 1 then
    match (iterRelMatches nodes rel).getLast? with
    | none => .ok (iterRelBase rel nodes, false)
    | some itn =>
      match itn.instances with
      | none => .error (.keyError "instances")
      | some insts =>
        match iter_rel_instances doc rel insts.length with
        | .error e => .error e
        | .ok instances =>
          if instances.length > 0 then
            .ok ({ iterRelBase rel nodes with instances := some instances }, true)
          else
            .ok (iterRelBase rel nodes, false)
  else
    .ok (iterRelBase rel nodes, false)

/-- The relationship loop of `GraphBuilder._gen_relationships`
(src/source/neo.py lines 690-707): mirrors the node loop, with `break` on an
invalid required relationship. -/
def gen_relationships_go (doc : DVal) (nodes : List CompiledNode) :
    List RelDef → Except PyErr (List CompiledRel × Bool)
  | [] => .ok ([], true)
  | rel :: rest =>
    match (if rel.relationshipType == "standard" then
             gen_standard_relationship doc rel nodes
           else if rel.relationshipType == "iterator" then
             gen_iterative_relationship doc rel nodes
           else .ok (baseRel rel, false)) with
    | .error e => .error e
    | .ok (new_rel, valid) =>
      if valid then
        match gen_relationships_go doc nodes rest with
        | .error e => .error e
        | .ok (rs, valid_doc) => .ok (new_rel :: rs, valid_doc)
      else if rel.required then
        .ok ([], false)
      else
        gen_relationships_go doc nodes rest

/-- Embeds `GraphBuilder._gen_relationships` (src/source/neo.py lines
682-707). -/
def gen_relationships (mapping : Mapping) (doc : DVal)
    (nodes : List CompiledNode) : Except PyErr (List CompiledRel × Bool) :=
  gen_relationships_go doc nodes mapping.relationships

/-- A minimal compiled standard node with the given id, as `_gen_nodes`
produces for a standard node with no evaluated properties. -/
def cnode (i : String) : CompiledNode :=
  { nodeType := "standard", labels := ["L"], id := i, properties := none,
    uniqueProperties := none, uniqueLabels := none, instances := none }

/-- The relationship of the C7 experiment: one declared property `p` whose
source path `x` is absent from the document, with `p` listed in
`uniqueProperties` but not in `requiredProperties`. -/
def rel_C7 : RelDef :=
  { type := "R", relationshipType := "standard", directionality := ">",
    sourceNode := "a", destinationNode := "b", required := false,
    unique := none, properties := some [("p", ⟨"x", "string"⟩)],
    uniqueProperties := some ["p"], requiredProperties := none }

/-- The node definition of the C7 experiment with the same property
declarations as `rel_C7`. -/
def node_C7 : NodeDef :=
  { id := "n", nodeType := "standard", labels := ["L"], required := false,
    properties := some [("p", ⟨"x", "string"⟩)], uniqueProperties := some ["p"],
    requiredProperties := none, uniqueLabels := none, iterator := none }

/-- C7: with identical property declarations and an empty document, node
compilation succeeds with no `uniqueProperties` entry, while relationship
compilation raises `KeyError` on the `properties[key]` lookup that sits
outside the presence branch — the partitions are not identical. -/
theorem standard_rel_unique_prop_keyerror :
    gen_standard_relationship (.vdict []) rel_C7 [cnode "a", cnode "b"] =
      .error (.keyError "p") ∧
    gen_standard_node (.vdict []) node_C7 = .ok (baseNode node_C7, true) :=
  ⟨rfl, rfl⟩

theorem iter_rel_instances_of_some (doc : DVal) (rel : RelDef)
    (inst : RelInstance) (h : iter_rel_instance doc rel = .ok (some inst)) :
    ∀ n, iter_rel_instances doc rel n = .ok (List.replicate n inst) := by
  intro n
  induction n with
  | zero => simp [iter_rel_instances, List.replicate]
  | succ n ih => simp [iter_rel_instances, h, ih, List.replicate]

theorem iter_rel_instances_of_none (doc : DVal) (rel : RelDef)
    (h : iter_rel_instance doc rel = .ok none) :
    ∀ n, iter_rel_instances doc rel n = .ok [] := by
  intro n
  induction n with
  | zero => simp [iter_rel_instances]
  | succ n ih => simp [iter_rel_instances, h, ih]

theorem iter_rel_instances_of_error (doc : DVal) (rel : RelDef)
    (e : PyErr) (h : iter_rel_instance doc rel = .error e) :
    ∀ n, n ≠ 0 → iter_rel_instances doc rel n = .error e := by
  intro n hn
  cases n with
  | zero => exact absurd rfl hn
  | succ n => simp [iter_rel_instances, h]

/-- C10: every valid compiled iterator relationship has pairwise-equal
instances — the loop body of `_gen_iterative_relationship` depends only on
the document and the mapping, never on the loop index. -/
theorem iter_rel_instances_all_equal (doc : DVal) (rel : RelDef)
    (nodes : List CompiledNode) (r : CompiledRel)
    (h : gen_iterative_relationship doc rel nodes = .ok (r, true)) :
    ∀ il, r.instances = some il → ∀ a ∈ il, ∀ b ∈ il, a = b := by
  intro il hil a ha b hb
  unfold gen_iterative_relationship at h
  split at h
  · split at h
    · simp at h
    · rename_i itn hlast
      split at h
      · simp at h
      · rename_i insts hinsts
        split at h
        · simp at h
        · rename_i instances hloop
          split at h
          · rename_i hlen
            simp only [Except.ok.injEq, Prod.mk.injEq] at h
            obtain ⟨hr, _⟩ := h
            subst hr
            have hil2 : instances = il := by
              simpa using hil
            subst hil2
            cases hbody : iter_rel_instance doc rel with
            | error e =>
              cases hn : insts.length with
              | zero =>
                rw [hn] at hloop
                simp only [iter_rel_instances, Except.ok.injEq] at hloop
                subst hloop
                simp at hlen
              | succ m =>
                rw [hn] at hloop
                simp [iter_rel_instances, hbody] at hloop
            | ok o =>
              cases o with
              | none =>
                rw [iter_rel_instances_of_none doc rel hbody insts.length] at hloop
                simp only [Except.ok.injEq] at hloop
                subst hloop
                simp at ha
              | some inst =>
                rw [iter_rel_instances_of_some doc rel inst hbody insts.length] at hloop
                simp only [Except.ok.injEq] at hloop
                subst hloop
                rw [List.eq_of_mem_replicate ha, List.eq_of_mem_replicate hb]
          · simp at h
  · simp at h

/-! ## Statement generator -/

/-- A single-quote character, as Python `repr` uses for strings. -/
def sQuote : String := String.mk ['\x27']

mutual
/-- Python `repr()` over the embedded values, as produced when a container
value is interpolated into a statement through `str()`. -/
def pyRepr : DVal → String
  | .vnull => "None"
  | .vbool true => "True"
  | .vbool false => "False"
  | .vnum n => toString n
  | .vstr s => sQuote ++ s ++ sQuote
  | .vlist xs => "[" ++ pyReprList xs ++ "]"
  | .vdict m => "\x7b" ++ pyReprEntries m ++ "\x7d"

def pyReprList : List DVal → String
  | [] => ""
  | [x] => pyRepr x
  | x :: xs => pyRepr x ++ ", " ++ pyReprList xs

def pyReprEntries : List (String × DVal) → String
  | [] => ""
  | [(k, v)] => sQuote ++ k ++ sQuote ++ ": " ++ pyRepr v
  | (k, v) :: xs => sQuote ++ k ++ sQuote ++ ": " ++ pyRepr v ++ ", " ++ pyReprEntries xs
end

/-- Python `str()` as applied by `"...".format(...)`: strings interpolate
verbatim, every other value through its repr. -/
def pyStr (v : DVal) : String :=
  match v with
  | .vstr s => s
  | _ => pyRepr v

/-- Embeds `GraphBuilder._get_property_value` (src/source/neo.py lines
502-518) composed with the `str()` conversion applied by the callers'
`format`: numbers and lists interpolate raw, datetimes wrap in a
`datetime("...")` constructor call, every other type tag is double-quoted. -/
def get_property_value (prop : PropValue) : String :=
  if prop.ptype == "number" then pyStr prop.value
  else if prop.ptype == "datetime" then "datetime(\"" ++ pyStr prop.value ++ "\")"
  else if prop.ptype == "list" then pyStr prop.value
  else "\"" ++ pyStr prop.value ++ "\""

/-- Embeds `GraphBuilder._gen_label_string` (src/source/neo.py lines
451-461). -/
def gen_label_string (labels : List String) : String :=
  labels.foldl (fun acc l => acc ++ ":" ++ l) ""

/-- Embeds `GraphBuilder._gen_properties_string` (src/source/neo.py lines
463-500): dict style `{k: v, ...}`, or `WHERE`/`SET` assignment style joined
with ` AND ` (match logic) or `, `. -/
def gen_properties_string (properties : List (String × PropValue))
    (dict_style match_logic : Bool) (v : String) (opening_statement : Bool) : String :=
  if dict_style then
    " \x7b" ++ String.intercalate ", "
      (properties.map (fun p => p.1 ++ ": " ++ get_property_value p.2)) ++ "\x7d"
  else
    (if properties.length > 0 then
       (if match_logic then (if opening_statement then " WHERE " else "") else " SET ")
     else "") ++
    String.intercalate (if match_logic then " AND " else ", ")
      (properties.map (fun p => v ++ "." ++ p.1 ++ " = " ++ get_property_value p.2))

/-- Embeds `GraphBuilder._get_missing_labels` (src/source/neo.py lines
203-215). -/
def get_missing_labels (labels unique_labels : List String) : List String :=
  labels.filter (fun l => !unique_labels.contains l)

/-- Embeds `GraphBuilder._get_missing_props` (src/source/neo.py lines
443-449): the properties not named in `unique_properties`, with their values
taken from `properties`. -/
def get_missing_props (properties unique_properties : List (String × PropValue)) :
    List (String × PropValue) :=
  properties.filter (fun p => !(unique_properties.any (fun u => u.1 == p.1)))

/-- Python `d['k']` on a compiled dict whose key may be absent. -/
def getKey {α : Type} (o : Option α) (k : String) : Except PyErr α :=
  match o with
  | some a => .ok a
  | none => .error (.keyError k)

/-- Embeds `GraphBuilder._gen_standard_node_statements` (src/source/neo.py
lines 122-158): MERGE on unique labels/properties with a SET clause for the
remaining properties (values read from `node['properties']`) and labels;
CREATE otherwise (MERGE when only `uniqueLabels` is given). -/
def gen_standard_node_statements (node : CompiledNode) : Except PyErr (List String) :=
  match node.uniqueProperties with
  | some ups =>
    let s1 := (match node.uniqueLabels with
      | some ul => "MERGE (n" ++ gen_label_string ul
      | none => "MERGE (n" ++ gen_label_string node.labels)
      ++ gen_properties_string ups true false "n" true ++ ")"
    let not_in_unique := (match node.uniqueLabels with
      | some ul => get_missing_labels node.labels ul
      | none => [])
    match getKey node.properties "properties" with
    | .error e => .error e
    | .ok ps =>
      let need_to_set := get_missing_props ps ups
      let s2 := if need_to_set.length > 0 then
          s1 ++ gen_properties_string need_to_set false false "n" true else s1
      let s3 := if not_in_unique.length > 0 then
          (if need_to_set.length > 0 then s2 ++ ", n" ++ gen_label_string not_in_unique
           else s2 ++ "SET n" ++ gen_label_string not_in_unique)
        else s2
      .ok [s3]
  | none =>
    let pair := (match node.uniqueLabels with
      | some ul => (get_missing_labels node.labels ul, "MERGE (n" ++ gen_label_string ul)
      | none => (([] : List String), "CREATE (n" ++ gen_label_string node.labels))
    let s1 := (match node.properties with
      | some ps => pair.2 ++ gen_properties_string ps true false "n" true
      | none => pair.2) ++ ")"
    let s2 := if pair.1.length > 0 then s1 ++ "SET n" ++ gen_label_string pair.1 else s1
    .ok [s2]

/-- The SET-map construction of `_gen_iterator_node_statements`
(src/source/neo.py lines 177-180): for each property not among the unique
properties, the value is read from `instance['uniqueProperties'][prop]` — a
key that map cannot contain on this branch — so the lookup raises
`KeyError`. -/
def need_to_set_iter (ups : List (String × PropValue)) :
    List (String × PropValue) → Except PyErr (List (String × PropValue))
  | [] => .ok []
  | (k, _) :: rest =>
    if ups.any (fun u => u.1 == k) then need_to_set_iter ups rest
    else
      match ups.find? (fun u => u.1 == k) with
      | some u =>
        match need_to_set_iter ups rest with
        | .error e => .error e
        | .ok l => .ok ((k, u.2) :: l)
      | none => .error (.keyError k)

/-- The per-instance statement of `GraphBuilder._gen_iterator_node_statements`
(src/source/neo.py lines 166-200), including the `need_to_set` slip above. -/
def gen_iterator_instance_statement (inst : NodeInstance) : Except PyErr String :=
  match inst.uniqueProperties with
  | some ups =>
    let s1 := (match inst.uniqueLabels with
      | some ul => "MERGE (n" ++ gen_label_string ul
      | none => "MERGE (n" ++ gen_label_string inst.labels)
      ++ gen_properties_string ups true false "n" true ++ ")"
    let not_in_unique := (match inst.uniqueLabels with
      | some ul => get_missing_labels inst.labels ul
      | none => [])
    match getKey inst.properties "properties" with
    | .error e => .error e
    | .ok ps =>
      match need_to_set_iter ups ps with
      | .error e => .error e
      | .ok need_to_set =>
        let s2 := if need_to_set.length > 0 then
            s1 ++ gen_properties_string need_to_set false false "n" true else s1
        let s3 := if not_in_unique.length > 0 then
            (if need_to_set.length > 0 then s2 ++ ", n" ++ gen_label_string not_in_unique
             else s2 ++ "SET n" ++ gen_label_string not_in_unique)
          else s2
        .ok s3
  | none =>
    let pair := (match inst.uniqueLabels with
      | some ul => (get_missing_labels inst.labels ul, "MERGE (n" ++ gen_label_string ul)
      | none => (([] : List String), "CREATE (n" ++ gen_label_string inst.labels))
    let s1 := (match inst.properties with
      | some ps => pair.2 ++ gen_properties_string ps true false "n" true
      | none => pair.2) ++ ")"
    let s2 := if pair.1.length > 0 then s1 ++ "SET n" ++ gen_label_string pair.1 else s1
    .ok s2

def gen_iterator_instance_statements :
    List NodeInstance → Except PyErr (List String)
  | [] => .ok []
  | inst :: rest =>
    match gen_iterator_instance_statement inst with
    | .error e => .error e
    | .ok s =>
      match gen_iterator_instance_statements rest with
      | .error e => .error e
      | .ok l => .ok (s :: l)

/-- Embeds `GraphBuilder._gen_iterator_node_statements` (src/source/neo.py
lines 160-201): one statement per instance. -/
def gen_iterator_node_statements (node : CompiledNode) : Except PyErr (List String) :=
  match getKey node.instances "instances" with
  | .error e => .error e
  | .ok insts => gen_iterator_instance_statements insts

/-- The iterator node instance of the C3 experiment: two properties, one of
them unique. -/
def inst_C3 : NodeInstance :=
  { labels := ["L"], uniqueLabels := none,
    properties := some [("p1", ⟨.vstr "a", "string"⟩), ("p2", ⟨.vstr "b", "string"⟩)],
    uniqueProperties := some [("p1", ⟨.vstr "a", "string"⟩)] }

/-- The compiled iterator node of the C3 experiment. -/
def node_C3 : CompiledNode :=
  { nodeType := "iterator", labels := ["L"], id := "n", properties := none,
    uniqueProperties := none, uniqueLabels := none, instances := some [inst_C3] }

/-- The standard-node counterpart of the C3 experiment: the same labels and
property maps carried on a compiled standard node. -/
def node_C3_std : CompiledNode :=
  { nodeType := "standard", labels := ["L"], id := "n",
    properties := some [("p1", ⟨.vstr "a", "string"⟩), ("p2", ⟨.vstr "b", "string"⟩)],
    uniqueProperties := some [("p1", ⟨.vstr "a", "string"⟩)],
    uniqueLabels := none, instances := none }

/-- C3: generating the MERGE statement for an iterator node instance with a
property (`p2`) outside `uniqueProperties` raises `KeyError` — the SET value
is read from `instance['uniqueProperties']` instead of the properties map —
while the standard-node generator emits the intended statement, with `p2`
only in the SET clause and its value taken from `properties`. -/
theorem iterator_node_statement_keyerror :
    gen_iterator_node_statements node_C3 = .error (.keyError "p2") ∧
    gen_standard_node_statements node_C3_std =
      .ok ["MERGE (n:L \x7bp1: \"a\"\x7d) SET n.p2 = \"b\""] :=
  ⟨rfl, rfl⟩

/-- The tail of each relationship statement (src/source/neo.py lines 343-372
and 410-439): MERGE/CREATE choice from the instance's unique metadata,
arrow orientation from `directionality`, inline unique properties on the
edge, and a trailing SET for the remaining (or, when not unique, all)
properties. -/
def rel_instance_tail (m : String) (ri : RelInstance) : Except PyErr String :=
  let uq := (match ri.unique with | some b => b | none => false)
    || ri.uniqueProperties.isSome
  let m5 := if uq then m ++ " MERGE (s)" else m ++ " CREATE (s)"
  if ri.directionality == ">" then
    if uq && ri.uniqueProperties.isSome then
      match getKey ri.properties "properties" with
      | .error e => .error e
      | .ok rps =>
        match getKey ri.uniqueProperties "uniqueProperties" with
        | .error e => .error e
        | .ok rups =>
          let need := get_missing_props rps rups
          let m6 := m5 ++ "-[r:" ++ ri.type
            ++ gen_properties_string rups true false "n" true ++ "]->(d)"
          .ok (if need.length > 0 then
            m6 ++ gen_properties_string need false false "r" true else m6)
    else
      let m6 := m5 ++ "-[r:" ++ ri.type ++ "]->(d)"
      .ok (if !uq then
          (match ri.properties with
           | some rps => m6 ++ gen_properties_string rps false false "r" true
           | none => m6)
        else m6)
  else
    if uq && ri.uniqueProperties.isSome then
      match getKey ri.properties "properties" with
      | .error e => .error e
      | .ok rps =>
        match getKey ri.uniqueProperties "uniqueProperties" with
        | .error e => .error e
        | .ok rups =>
          let need := get_missing_props rps rups
          let m6 := m5 ++ "<-[r:" ++ ri.type
            ++ gen_properties_string rups true false "n" true ++ "]-(d)"
          .ok (if need.length > 0 then
            m6 ++ gen_properties_string need false false "r" true else m6)
    else
      let m6 := m5 ++ "<-[r:" ++ ri.type ++ "]-(d)"
      .ok (if !uq then
          (match ri.properties with
           | some rps => m6 ++ gen_properties_string rps false false "r" true
           | none => m6)
        else m6)

/-- One statement of `_gen_iterative_relationship_statements` when the
source endpoint is the iterator (src/source/neo.py lines 306-373): the MATCH
patterns and WHERE clause pair the source node instance `ni` with the
relationship instance `ri`; note the source uses
`relationship["destinationNode"]["properties"]` even on its
`uniqueProperties` branch. -/
def iter_rel_pair_statement_src (rel : CompiledRel) (ni : NodeInstance)
    (ri : RelInstance) : Except PyErr String :=
  match getKey rel.destinationNode "destinationNode" with
  | .error e => .error e
  | .ok dst =>
    let m1 := "MATCH " ++ (match ni.uniqueLabels with
      | some ul => "(s" ++ gen_label_string ul ++ "), "
      | none => "(s" ++ gen_label_string ni.labels ++ "), ")
    let m2 := m1 ++ (match dst.uniqueLabels with
      | some ul => "(d" ++ gen_label_string ul ++ ") "
      | none => "(d" ++ gen_label_string dst.labels ++ ") ")
    let sp := (match ni.uniqueProperties with
      | some ups => (m2 ++ gen_properties_string ups false true "s" true, true)
      | none => match ni.properties with
        | some ps => (m2 ++ gen_properties_string ps false true "s" true, true)
        | none => (m2, false))
    let m3 := if sp.2 then sp.1 ++ " AND " else sp.1
    match (match dst.uniqueProperties with
      | some _ =>
        (match getKey dst.properties "properties" with
         | .error e => Except.error e
         | .ok ps => .ok (m3 ++ gen_properties_string ps false true "d" (!sp.2)))
      | none => match dst.properties with
        | some ps => .ok (m3 ++ gen_properties_string ps false true "d" (!sp.2))
        | none => .ok m3) with
    | .error e => .error e
    | .ok m4 => rel_instance_tail m4 ri

/-- One statement of `_gen_iterative_relationship_statements` when the
destination endpoint is the iterator (src/source/neo.py lines 374-440); the
destination side reads `node_instance["properties"]` on both branches. -/
def iter_rel_pair_statement_dst (rel : CompiledRel) (ni : NodeInstance)
    (ri : RelInstance) : Except PyErr String :=
  match getKey rel.sourceNode "sourceNode" with
  | .error e => .error e
  | .ok src =>
    let m1 := "MATCH " ++ (match src.uniqueLabels with
      | some ul => "(s" ++ gen_label_string ul ++ "), "
      | none => "(s" ++ gen_label_string src.labels ++ "), ")
    let m2 := m1 ++ (match ni.uniqueLabels with
      | some ul => "(d" ++ gen_label_string ul ++ ") "
      | none => "(d" ++ gen_label_string ni.labels ++ ") ")
    let sp := (match src.uniqueProperties with
      | some ups => (m2 ++ gen_properties_string ups false true "s" true, true)
      | none => match src.properties with
        | some ps => (m2 ++ gen_properties_string ps false true "s" true, true)
        | none => (m2, false))
    let m3 := if sp.2 then sp.1 ++ " AND " else sp.1
    match (match ni.uniqueProperties with
      | some _ =>
        (match getKey ni.properties "properties" with
         | .error e => Except.error e
         | .ok ps => .ok (m3 ++ gen_properties_string ps false true "d" (!sp.2)))
      | none => match ni.properties with
        | some ps => .ok (m3 ++ gen_properties_string ps false true "d" (!sp.2))
        | none => .ok m3) with
    | .error e => .error e
    | .ok m4 => rel_instance_tail m4 ri

def iter_rel_pair_statements_src (rel : CompiledRel) :
    List (NodeInstance × RelInstance) → Except PyErr (List String)
  | [] => .ok []
  | (ni, ri) :: rest =>
    match iter_rel_pair_statement_src rel ni ri with
    | .error e => .error e
    | .ok s =>
      match iter_rel_pair_statements_src rel rest with
      | .error e => .error e
      | .ok l => .ok (s :: l)

def iter_rel_pair_statements_dst (rel : CompiledRel) :
    List (NodeInstance × RelInstance) → Except PyErr (List String)
  | [] => .ok []
  | (ni, ri) :: rest =>
    match iter_rel_pair_statement_dst rel ni ri with
    | .error e => .error e
    | .ok s =>
      match iter_rel_pair_statements_dst rel rest with
      | .error e => .error e
      | .ok l => .ok (s :: l)

/-- Embeds `GraphBuilder._gen_iterative_relationship_statements`
(src/source/neo.py lines 299-441): when the source endpoint is
iterator-typed, zip its instance list with the relationship's; otherwise zip
the destination's instance list — pairing instance *i* with instance *i*. -/
def gen_iterative_relationship_statements (rel : CompiledRel) :
    Except PyErr (List String) :=
  match getKey rel.sourceNode "sourceNode" with
  | .error e => .error e
  | .ok src =>
    if src.nodeType == "iterator" then
      match getKey src.instances "instances" with
      | .error e => .error e
      | .ok nis =>
        match getKey rel.instances "instances" with
        | .error e => .error e
        | .ok ris => iter_rel_pair_statements_src rel (nis.zip ris)
    else
      match getKey rel.destinationNode "destinationNode" with
      | .error e => .error e
      | .ok dst =>
        match getKey dst.instances "instances" with
        | .error e => .error e
        | .ok nis =>
          match getKey rel.instances "instances" with
          | .error e => .error e
          | .ok ris => iter_rel_pair_statements_dst rel (nis.zip ris)

theorem filter_id_singleton {nodes : List CompiledNode} {s : String}
    (hnodup : (nodes.map (fun n => n.id)).Nodup)
    (hne : (nodes.filter (fun n => n.id == s)).isEmpty = false) :
    ∃ a, nodes.filter (fun n => n.id == s) = [a] := by
  induction nodes with
  | nil => simp at hne
  | cons n rest ih =>
    simp only [List.map_cons, List.nodup_cons] at hnodup
    obtain ⟨hnotin, hnd⟩ := hnodup
    by_cases hid : n.id == s
    · have hrest : rest.filter (fun m => m.id == s) = [] := by
        rw [List.filter_eq_nil_iff]
        intro m hm hms
        apply hnotin
        rw [List.mem_map]
        refine ⟨m, hm, ?_⟩
        have h1 : m.id = s := by simpa using hms
        have h2 : n.id = s := by simpa using hid
        rw [h1, h2]
      exact ⟨n, by simp [List.filter_cons, hid, hrest]⟩
    · have hfc : (n :: rest).filter (fun m => m.id == s)
          = rest.filter (fun m => m.id == s) := by
        simp [List.filter_cons, hid]
      rw [hfc] at hne ⊢
      exact ih hnd hne

theorem iter_rel_instances_replicate_of_pos (doc : DVal) (rel : RelDef)
    (n : Nat) (instances : List RelInstance)
    (hloop : iter_rel_instances doc rel n = .ok instances)
    (hpos : instances.length > 0) :
    ∃ inst, iter_rel_instance doc rel = .ok (some inst) ∧
      instances = List.replicate n inst := by
  cases hbody : iter_rel_instance doc rel with
  | error e =>
    cases hn : n with
    | zero =>
      rw [hn] at hloop
      simp only [iter_rel_instances, Except.ok.injEq] at hloop
      subst hloop
      simp at hpos
    | succ m =>
      rw [hn] at hloop
      simp [iter_rel_instances, hbody] at hloop
  | ok o =>
    cases o with
    | none =>
      rw [iter_rel_instances_of_none doc rel hbody n] at hloop
      simp only [Except.ok.injEq] at hloop
      subst hloop
      simp at hpos
    | some inst =>
      rw [iter_rel_instances_of_some doc rel inst hbody n] at hloop
      simp only [Except.ok.injEq] at hloop
      exact ⟨inst, rfl, hloop.symm⟩

/-- C4: a valid compiled iterator relationship (over compiled nodes with
distinct ids) produces exactly as many instances as its unique
iterator-typed endpoint node has, and statement generation zips the two
instance lists, pairing relationship instance *i* with node instance *i*. -/
theorem iter_rel_count_and_pairing (doc : DVal) (rel : RelDef)
    (nodes : List CompiledNode) (r : CompiledRel)
    (hnodup : (nodes.map (fun n => n.id)).Nodup)
    (h : gen_iterative_relationship doc rel nodes = .ok (r, true)) :
    ∃ itn nis inst,
      itn.nodeType = "iterator" ∧
      itn.instances = some nis ∧
      r.instances = some (List.replicate nis.length inst) ∧
      (List.replicate nis.length inst).length = nis.length ∧
      ((r.sourceNode = some itn ∧
        gen_iterative_relationship_statements r =
          iter_rel_pair_statements_src r (nis.zip (List.replicate nis.length inst))) ∨
       (r.destinationNode = some itn ∧
        gen_iterative_relationship_statements r =
          iter_rel_pair_statements_dst r (nis.zip (List.replicate nis.length inst)))) := by
  unfold gen_iterative_relationship at h
  split at h
  · rename_i hcond
    simp only [Bool.and_eq_true, Bool.not_eq_true', beq_iff_eq] at hcond
    obtain ⟨⟨hsrc, hdst⟩, hlen1⟩ := hcond
    obtain ⟨a, hsm⟩ := filter_id_singleton hnodup hsrc
    obtain ⟨b, hdm⟩ := filter_id_singleton hnodup hdst
    have hsm' : srcMatches nodes rel = [a] := hsm
    have hdm' : dstMatches nodes rel = [b] := hdm
    have hIM : iterRelMatches nodes rel
        = [a, b].filter (fun n => n.nodeType == "iterator") := by
      simp [iterRelMatches, hsm', hdm']
    split at h
    · simp at h
    · rename_i itn heq
      split at h
      · simp at h
      · rename_i insts hinsts
        split at h
        · simp at h
        · rename_i instances hloop
          split at h
          · rename_i hpos
            simp only [Except.ok.injEq, Prod.mk.injEq] at h
            obtain ⟨hr, _⟩ := h
            subst hr
            obtain ⟨inst, hbody, hrepl⟩ :=
              iter_rel_instances_replicate_of_pos doc rel insts.length instances hloop hpos
            subst hrepl
            by_cases pa : a.nodeType == "iterator"
            · by_cases pb : b.nodeType == "iterator"
              · rw [hIM] at hlen1
                simp [List.filter_cons, pa, pb] at hlen1
              · have hIM2 : iterRelMatches nodes rel = [a] := by
                  rw [hIM]; simp [List.filter_cons, pa, pb]
                rw [hIM2] at heq
                have hitn : itn = a := by simpa using heq.symm
                subst hitn
                refine ⟨itn, insts, inst, by simpa using pa, hinsts, by simp, by simp, ?_⟩
                left
                constructor
                · simp [iterRelBase, baseRel, hsm']
                · rw [gen_iterative_relationship_statements]
                  simp only [iterRelBase, baseRel, hsm', hdm', getKey, List.getLast?]
                  simp [pa, getKey, hinsts]
            · by_cases pb : b.nodeType == "iterator"
              · have hIM2 : iterRelMatches nodes rel = [b] := by
                  rw [hIM]; simp [List.filter_cons, pa, pb]
                rw [hIM2] at heq
                have hitn : itn = b := by simpa using heq.symm
                subst hitn
                refine ⟨itn, insts, inst, by simpa using pb, hinsts, by simp, by simp, ?_⟩
                right
                constructor
                · simp [iterRelBase, baseRel, hdm']
                · rw [gen_iterative_relationship_statements]
                  simp only [iterRelBase, baseRel, hsm', hdm', getKey, List.getLast?]
                  simp [pa, pb, getKey, hinsts]
              · rw [hIM] at hlen1
                simp [List.filter_cons, pa, pb] at hlen1
          · simp at h
  · simp at h

/-- A node instance of the iterator-node fixture. -/
def ninst (s : String) : NodeInstance :=
  { labels := ["I"], uniqueLabels := none,
    properties := some [("p", ⟨.vstr s, "string"⟩)], uniqueProperties := none }

/-- A compiled iterator node with three instances. -/
def iterNode_ex : CompiledNode :=
  { nodeType := "iterator", labels := ["I"], id := "it", properties := none,
    uniqueProperties := none, uniqueLabels := none,
    instances := some [ninst "x", ninst "y", ninst "z"] }

/-- An iterator relationship from the iterator node to a standard node. -/
def rel_iter_ex : RelDef :=
  { type := "R", relationshipType := "iterator", directionality := ">",
    sourceNode := "it", destinationNode := "std", required := true,
    unique := none, properties := none, uniqueProperties := none,
    requiredProperties := none }

/-- The relationship instance the fixture compiles to. -/
def ri_ex : RelInstance :=
  { type := "R", directionality := ">", unique := none, properties := none,
    uniqueProperties := none }

/-- The compiled relationship of the fixture: three identical instances. -/
def crel_ex : CompiledRel :=
  { type := "R", relationshipType := "iterator", directionality := none,
    unique := none, sourceNode := some iterNode_ex,
    destinationNode := some (cnode "std"), properties := none,
    uniqueProperties := none, instances := some [ri_ex, ri_ex, ri_ex] }

/-- C4 witness: the fixture's iterator endpoint has 3 instances and the
compiled relationship has exactly 3, positionally zipped by the statement
generator. -/
theorem iter_rel_count_and_pairing_witness :
    ∃ itn nis inst,
      itn.nodeType = "iterator" ∧
      itn.instances = some nis ∧
      crel_ex.instances = some (List.replicate nis.length inst) ∧
      (List.replicate nis.length inst).length = nis.length ∧
      ((crel_ex.sourceNode = some itn ∧
        gen_iterative_relationship_statements crel_ex =
          iter_rel_pair_statements_src crel_ex
            (nis.zip (List.replicate nis.length inst))) ∨
       (crel_ex.destinationNode = some itn ∧
        gen_iterative_relationship_statements crel_ex =
          iter_rel_pair_statements_dst crel_ex
            (nis.zip (List.replicate nis.length inst)))) :=
  iter_rel_count_and_pairing (.vdict []) rel_iter_ex [iterNode_ex, cnode "std"]
    crel_ex (by decide) rfl

/-- C10 witness: the fixture's compiled relationship holds three instances,
and the theorem applied at two of them yields their equality. -/
theorem iter_rel_instances_all_equal_witness :
    crel_ex.instances = some [ri_ex, ri_ex, ri_ex] ∧ ri_ex = ri_ex :=
  ⟨rfl, iter_rel_instances_all_equal (.vdict []) rel_iter_ex [iterNode_ex, cnode "std"]
    crel_ex rfl [ri_ex, ri_ex, ri_ex] rfl ri_ex (by simp) ri_ex (by simp)⟩

/-! ## ITER! in relationship properties (C8) -/

/-- The iterator relationship of the C8 experiment: one declared property
whose source path is the `ITER!` sentinel. -/
def rel_C8 : RelDef :=
  { type := "R", relationshipType := "iterator", directionality := ">",
    sourceNode := "it", destinationNode := "std", required := false,
    unique := none, properties := some [("p", ⟨"ITER!", "string"⟩)],
    uniqueProperties := none, requiredProperties := none }

/-- The document of the C8 experiment: `{"arr": ["x", "y", "z"]}`. -/
def doc_C8 : DVal := .vdict [("arr", .vlist [.vstr "x", .vstr "y", .vstr "z"])]

/-- The iterator node definition of the C8 experiment, binding `ITER!`. -/
def node_C8 : NodeDef :=
  { id := "it", nodeType := "iterator", labels := ["I"], required := false,
    properties := some [("p", ⟨"ITER!", "string"⟩)], uniqueProperties := none,
    requiredProperties := none, uniqueLabels := none, iterator := some "arr" }

/-- C8 counterexample: node compilation binds the `ITER!` property of each
instance to its array element (`x`, `y`, `z`), but relationship compilation
of the same declaration produces three instances carrying no properties at
all — the sentinel is looked up as a literal document path and dropped. -/
theorem iter_rel_sentinel_ignored :
    gen_iterative_node doc_C8 node_C8 =
      .ok ({ baseNode node_C8 with
             instances := some [ninst "x", ninst "y", ninst "z"] }, true) ∧
    gen_iterative_relationship doc_C8 rel_C8 [iterNode_ex, cnode "std"] =
      .ok ({ baseRel rel_C8 with
             sourceNode := some iterNode_ex,
             destinationNode := some (cnode "std"),
             instances := some [ri_ex, ri_ex, ri_ex] }, true) ∧
    ri_ex.properties = none :=
  ⟨rfl, rfl, rfl⟩

/-- C8 amended: a relationship property whose source path check fails (as
`ITER!` does on a document without such a key) and which is neither required
nor unique is simply omitted from every relationship instance — there is no
sentinel binding in relationship compilation. -/
theorem iter_rel_sentinel_treated_as_path (doc : DVal) (rel : RelDef)
    (k : String) (pd : PropDef)
    (hp : rel.properties = some [(k, pd)])
    (hcheck : recursive_key_check (splitDots pd.key) doc = .ok false)
    (hreq : optMem k rel.requiredProperties = false)
    (huniq : optMem k rel.uniqueProperties = false) :
    iter_rel_instance doc rel =
      .ok (some { type := rel.type, directionality := rel.directionality,
                  unique := rel.unique, properties := none,
                  uniqueProperties := none }) := by
  simp [iter_rel_instance, hp, rel_props_go, hcheck, hreq, huniq]

/-- C8 amended, witness: the theorem applied to the C8 fixture. -/
theorem iter_rel_sentinel_treated_as_path_witness :
    iter_rel_instance doc_C8 rel_C8 =
      .ok (some { type := rel_C8.type, directionality := rel_C8.directionality,
                  unique := rel_C8.unique, properties := none,
                  uniqueProperties := none }) :=
  iter_rel_sentinel_treated_as_path doc_C8 rel_C8 "p" ⟨"ITER!", "string"⟩
    rfl rfl rfl rfl

/-! ## Statement execution (C9) -/

/-- The statement-execution loop of `GraphBuilder._execute_statements`
(src/source/neo.py lines 64-80) over one statement list, with the Neo4j
session abstracted as the sink function `ex` (spec, section 6): each
statement is passed to `session.write_transaction` in order; the body
contains no `try`/`except`, so a failing execution raises out of the loop.
The result is the ordered trace of statements whose execution was attempted,
paired with the exception, if any, that aborted the loop. -/
def exec_loop (ex : String → Except PyErr Unit) :
    List String → List String × Option PyErr
  | [] => ([], none)
  | s :: rest =>
    match ex s with
    | .ok _ =>
      let r := exec_loop ex rest
      (s :: r.1, r.2)
    | .error e => ([s], some e)

/-- Embeds `GraphBuilder._execute_statements` (src/source/neo.py lines
64-80): all node statements, then all relationship statements; an exception
from either loop propagates immediately. -/
def execute_statements (ex : String → Except PyErr Unit)
    (node_statements relationship_statements : List String) :
    List String × Option PyErr :=
  match exec_loop ex node_statements with
  | (tr, some e) => (tr, some e)
  | (tr, none) =>
    let r := exec_loop ex relationship_statements
    (tr ++ r.1, r.2)

/-- A sink that fails on statement `B` and succeeds on everything else. -/
def failing_sink (s : String) : Except PyErr Unit :=
  if s == "B" then .error .typeError else .ok ()

/-- C9 counterexample: when statement `B` of the batch `A B C / D` fails,
only `A` and `B` were ever attempted — the remaining statements `C` and `D`
are not executed, contrary to the claim. -/
theorem execute_statements_abort_on_failure :
    execute_statements failing_sink ["A", "B", "C"] ["D"] =
      (["A", "B"], some .typeError) ∧
    "C" ∉ (execute_statements failing_sink ["A", "B", "C"] ["D"]).1 :=
  ⟨rfl, by decide⟩

theorem exec_loop_fail (ex : String → Except PyErr Unit) :
    ∀ (l tr : List String) (e : PyErr), exec_loop ex l = (tr, some e) →
      ∃ pfx s rest, l = pfx ++ s :: rest ∧ tr = pfx ++ [s] ∧
        (∀ t ∈ pfx, ex t = .ok ()) ∧ ex s = .error e := by
  intro l
  induction l with
  | nil => intro tr e h; simp [exec_loop] at h
  | cons s rest ih =>
    intro tr e h
    cases hx : ex s with
    | ok u =>
      cases hr : exec_loop ex rest with
      | mk tr2 oe =>
        simp only [exec_loop, hx, hr, Prod.mk.injEq] at h
        obtain ⟨h1, h2⟩ := h
        subst h1
        cases oe with
        | none => simp at h2
        | some e2 =>
          have he : e2 = e := by simpa using h2
          subst he
          obtain ⟨pfx, s2, rest2, hl, htr, hok, herr⟩ := ih tr2 e2 hr
          refine ⟨s :: pfx, s2, rest2, by rw [hl]; simp, by rw [htr]; simp, ?_, herr⟩
          intro t ht
          rcases List.mem_cons.mp ht with h | h
          · subst h; cases u; exact hx
          · exact hok t h
    | error e2 =>
      simp only [exec_loop, hx, Prod.mk.injEq] at h
      obtain ⟨h1, h2⟩ := h
      subst h1
      have he : e2 = e := by simpa using h2
      subst he
      exact ⟨[], s, rest, rfl, rfl, by simp, hx⟩

theorem exec_loop_ok (ex : String → Except PyErr Unit) :
    ∀ (l tr : List String), exec_loop ex l = (tr, none) →
      tr = l ∧ ∀ t ∈ l, ex t = .ok () := by
  intro l
  induction l with
  | nil =>
    intro tr h
    simp only [exec_loop, Prod.mk.injEq] at h
    exact ⟨h.1.symm, by simp⟩
  | cons s rest ih =>
    intro tr h
    cases hx : ex s with
    | ok u =>
      cases hr : exec_loop ex rest with
      | mk tr2 oe =>
        simp only [exec_loop, hx, hr, Prod.mk.injEq] at h
        obtain ⟨h1, h2⟩ := h
        subst h1
        cases oe with
        | some e2 => simp at h2
        | none =>
          obtain ⟨htr, hok⟩ := ih tr2 hr
          refine ⟨by rw [htr], ?_⟩
          intro t ht
          rcases List.mem_cons.mp ht with h | h
          · subst h; cases u; exact hx
          · exact hok t h
    | error e2 =>
      simp only [exec_loop, hx, Prod.mk.injEq] at h
      obtain ⟨_, h2⟩ := h
      simp at h2

/-- C9 amended: when a statement of the batch fails, the statements before
it were each executed exactly once (no retry) and remain executed (no
rollback); the failing statement is the last one attempted, and everything
after it in the batch is never executed. -/
theorem execute_statements_fail_semantics
    (ex : String → Except PyErr Unit) (ns rs tr : List String) (e : PyErr)
    (h : execute_statements ex ns rs = (tr, some e)) :
    ∃ pfx s rest, ns ++ rs = pfx ++ s :: rest ∧ tr = pfx ++ [s] ∧
      (∀ t ∈ pfx, ex t = .ok ()) ∧ ex s = .error e := by
  unfold execute_statements at h
  cases hn : exec_loop ex ns with
  | mk tr1 oe =>
    rw [hn] at h
    cases oe with
    | some e1 =>
      simp only [Prod.mk.injEq] at h
      obtain ⟨h1, h2⟩ := h
      subst h1
      have he : e1 = e := by simpa using h2
      subst he
      obtain ⟨pfx, s, rest, hl, htr, hok, herr⟩ := exec_loop_fail ex ns tr1 e1 hn
      exact ⟨pfx, s, rest ++ rs, by rw [hl]; simp, htr, hok, herr⟩
    | none =>
      cases hrr : exec_loop ex rs with
      | mk tr2 oe2 =>
        simp only [hrr, Prod.mk.injEq] at h
        obtain ⟨h1, h2⟩ := h
        subst h1
        cases oe2 with
        | none => simp at h2
        | some e2 =>
          have he : e2 = e := by simpa using h2
          subst he
          obtain ⟨htr1, hok1⟩ := exec_loop_ok ex ns tr1 hn
          subst htr1
          obtain ⟨pfx, s, rest, hl, htr, hok, herr⟩ := exec_loop_fail ex rs tr2 e2 hrr
          refine ⟨tr1 ++ pfx, s, rest, by rw [hl]; simp, by rw [htr]; simp, ?_, herr⟩
          intro t ht
          rcases List.mem_append.mp ht with h | h
          · exact hok1 t h
          · exact hok t h

/-- C9 amended, witness: the theorem applied to the failing batch fixture. -/
theorem execute_statements_fail_semantics_witness :
    ∃ pfx s rest, (["A", "B", "C"] ++ ["D"] : List String) = pfx ++ s :: rest ∧
      (["A", "B"] : List String) = pfx ++ [s] ∧
      (∀ t ∈ pfx, failing_sink t = .ok ()) ∧ failing_sink s = .error .typeError :=
  execute_statements_fail_semantics failing_sink ["A", "B", "C"] ["D"]
    ["A", "B"] .typeError rfl

/-! ## Document pipeline (C1) -/

/-- Embeds `GraphBuilder._process` (src/source/neo.py lines 520-543) with no
processing modules loaded (the default state when no `processors` directory
exists), so each hook stage is the identity: extract each hit's `_source`,
compile its nodes, then its relationships over those nodes; only a document
whose required nodes and relationships all compiled is accumulated — an
invalid document contributes nothing. -/
def process (mapping : Mapping) :
    List DVal → Except PyErr (List CompiledNode × List CompiledRel)
  | [] => .ok ([], [])
  | hit :: rest =>
    match indexDVal hit "_source" with
    | .error e => .error e
    | .ok doc =>
      match gen_nodes mapping doc with
      | .error e => .error e
      | .ok (doc_nodes, nodes_valid) =>
        if nodes_valid then
          match gen_relationships mapping doc doc_nodes with
          | .error e => .error e
          | .ok (doc_rels, rels_valid) =>
            if rels_valid then
              match process mapping rest with
              | .error e => .error e
              | .ok (ns, rs) => .ok (doc_nodes ++ ns, doc_rels ++ rs)
            else
              process mapping rest
        else
          process mapping rest

/-- Holds of a hit whose compilation is declared invalid (without raising):
node generation reports `valid = false`, or the nodes are valid and
relationship generation reports `valid = false`. -/
def doc_dropped (mapping : Mapping) (hit : DVal) : Bool :=
  match indexDVal hit "_source" with
  | .error _ => false
  | .ok doc =>
    match gen_nodes mapping doc with
    | .error _ => false
    | .ok (_, false) => true
    | .ok (doc_nodes, true) =>
      match gen_relationships mapping doc doc_nodes with
      | .ok (_, false) => true
      | _ => false

theorem process_cons_congr (mapping : Mapping) (hit : DVal) {L1 L2 : List DVal}
    (h : process mapping L1 = process mapping L2) :
    process mapping (hit :: L1) = process mapping (hit :: L2) := by
  simp only [process, h]

/-- C1: a document whose required-node or required-relationship compilation
fails is dropped whole — removing it from the batch leaves the pipeline
output unchanged, so it contributes zero nodes and zero relationships while
every other document is processed exactly as before. -/
theorem process_drops_invalid_document (mapping : Mapping) (d : DVal)
    (hd : doc_dropped mapping d = true) :
    ∀ pre post, process mapping (pre ++ d :: post) = process mapping (pre ++ post) := by
  have hmid : ∀ post, process mapping (d :: post) = process mapping post := by
    intro post
    unfold doc_dropped at hd
    cases hs : indexDVal d "_source" with
    | error e => simp only [hs] at hd; exact absurd hd (by simp)
    | ok doc =>
      simp only [hs] at hd
      cases hn : gen_nodes mapping doc with
      | error e => simp only [hn] at hd; exact absurd hd (by simp)
      | ok p =>
        obtain ⟨doc_nodes, nv⟩ := p
        simp only [hn] at hd
        cases nv with
        | false => simp [process, hs, hn]
        | true =>
          cases hr : gen_relationships mapping doc doc_nodes with
          | error e => simp only [hr] at hd; exact absurd hd (by simp)
          | ok q =>
            obtain ⟨doc_rels, rv⟩ := q
            simp only [hr] at hd
            cases rv with
            | false => simp [process, hs, hn, hr]
            | true => simp at hd
  intro pre
  induction pre with
  | nil => intro post; exact hmid post
  | cons hit t ih =>
    intro post
    simp only [List.cons_append]
    exact process_cons_congr mapping hit (ih post)

/-- The required standard node of the C1 fixture: its single property is
required, sourced from path `a.b`. -/
def node_req : NodeDef :=
  { id := "n1", nodeType := "standard", labels := ["P"], required := true,
    properties := some [("p", ⟨"a.b", "string"⟩)], uniqueProperties := none,
    requiredProperties := some ["p"], uniqueLabels := none, iterator := none }

/-- The mapping of the C1 fixture. -/
def mapping_C1 : Mapping :=
  { index := "idx", docType := "t", nodes := [node_req], relationships := [] }

/-- A hit whose document lacks the required path `a.b`. -/
def hit_bad : DVal := .vdict [("_source", .vdict [])]

/-- A hit whose document provides the required path `a.b`. -/
def hit_good : DVal :=
  .vdict [("_source", .vdict [("a", .vdict [("b", .vstr "x")])])]

/-- C1 witness: the invalid hit is dropped and its removal leaves the
pipeline output of the two-document batch unchanged. -/
theorem process_drops_invalid_document_witness :
    doc_dropped mapping_C1 hit_bad = true ∧
    process mapping_C1 ([hit_good] ++ hit_bad :: []) =
      process mapping_C1 ([hit_good] ++ []) :=
  ⟨rfl, process_drops_invalid_document mapping_C1 hit_bad rfl [hit_good] []⟩

/-! ## Mapping load (C5) -/

/-- Embeds `_load_mapping` (src/source/elastic2neo.py lines 76-93) after a
successful file read and YAML parse (I/O and parse failures concern the
file system, outside the data model): the parsed mapping is returned
unchanged — the body performs no validation of the mapping's contents (the
source marks the spot `TODO: mapping file validation`). -/
def load_mapping (m : Mapping) : Option Mapping := some m

/-- A relationship whose `sourceNode` references a node id that no node
definition declares. -/
def rel_dangling : RelDef :=
  { type := "R", relationshipType := "standard", directionality := ">",
    sourceNode := "missing", destinationNode := "n1", required := false,
    unique := none, properties := none, uniqueProperties := none,
    requiredProperties := none }

/-- The mapping of the C5 fixture, with a dangling node-id reference. -/
def mapping_C5 : Mapping :=
  { index := "idx", docType := "t", nodes := [node_req],
    relationships := [rel_dangling] }

/-- C5 counterexample: the mapping with a dangling `sourceNode` reference is
returned unchanged by mapping loading — it is not rejected at load time. -/
theorem load_mapping_accepts_dangling_reference :
    load_mapping mapping_C5 = some mapping_C5 := rfl

/-- C5 amended: loading performs no validation (every mapping is returned
unchanged); a relationship whose endpoint reference resolves to no compiled
node is instead marked invalid during each document's relationship
compilation, with no property evaluation. -/
theorem dangling_reference_rejected_per_document (m : Mapping) (doc : DVal)
    (rel : RelDef) (nodes : List CompiledNode)
    (hmiss : find_node nodes rel.sourceNode = none ∨
      find_node nodes rel.destinationNode = none) :
    load_mapping m = some m ∧
    gen_standard_relationship doc rel nodes = .ok (stdRelBase rel nodes, false) := by
  refine ⟨rfl, ?_⟩
  rw [gen_standard_relationship]
  rcases hmiss with hm | hm
  · simp [hm]
  · simp [hm]

/-- C5 amended, witness: the theorem applied to the dangling fixture and an
empty compiled node list. -/
theorem dangling_reference_rejected_per_document_witness :
    load_mapping mapping_C5 = some mapping_C5 ∧
    gen_standard_relationship (.vdict []) rel_dangling [] =
      .ok (stdRelBase rel_dangling [], false) :=
  dangling_reference_rejected_per_document mapping_C5 (.vdict []) rel_dangling []
    (Or.inl rfl)
